import Mathlib

/-!
Shallow embedding of `src/SimpleCache.py` (class `Cache`): a file-based
memoization cache with LRU-style recency tracking.

Modelling conventions:
* Python byte strings are `List Nat`.
* The cache directory is a flat association list from file path to file
  contents (`FS`); `os.scandir` sizes are content lengths.
* Python exceptions are the `PyErr` error type of `Except` results.
* The external collaborators `pickle` (dumps/loads), `zlib`
  (compress/decompress) and the hashlib digest algorithm are parameters
  (`Codec`, `HashAlg`); `pickle.loads` and `zlib.decompress` may fail,
  which models `UnpicklingError` and `zlib.error`.
* A Python callable defined with a fixed number of positional parameters
  is a `PyFunc` with an `arity`; calling it with a different number of
  positional arguments raises `TypeError`, as in Python.
-/

namespace SimpleCache

/-- Python byte strings, as lists of byte values. -/
abbrev Bytes := List Nat

/-- Python values that can flow through the cache: enough of Python's data
model (ints, strings, tuples) for the wrapped functions' arguments and
results. -/
inductive PyVal where
  | int (n : Int)
  | str (s : String)
  | tuple (elems : List PyVal)

/-- Python exceptions that the code under test can raise. -/
inductive PyErr where
  | attributeError      -- attribute lookup fails (`self.__evict` is undefined)
  | valueError          -- `list.index` on an element that is absent
  | typeError           -- calling a function with the wrong number of arguments
  | zlibError           -- `zlib.decompress` fails on corrupt bytes
  | unpicklingError     -- `pickle.loads` fails on corrupt bytes
  | zeroDivisionError   -- division by zero
  | fileNotFoundError   -- `open` on a missing file
deriving DecidableEq

/-- The external serialization/compression collaborators (`pickle`, `zlib`).
`loads` and `decompress` are partial: they fail on bytes that are not a
valid encoding, as the Python library functions raise. -/
structure Codec where
  dumps : PyVal → Bytes
  loads : Bytes → Option PyVal
  compress : Bytes → Bytes
  decompress : Bytes → Option Bytes

/-- A hashlib digest algorithm: bytes in, hexdigest string out. -/
abbrev HashAlg := Bytes → String

/-- The flat cache directory: file path to file contents. -/
abbrev FS := List (String × Bytes)

/-- Looks up a file's contents by path. -/
def fsLookup (fs : FS) (k : String) : Option Bytes :=
  match fs with
  | [] => none
  | (k', v) :: rest => if k' = k then some v else fsLookup rest k

/-- Writes a file, overwriting the previous contents if the path exists. -/
def fsInsert (fs : FS) (k : String) (v : Bytes) : FS :=
  match fs with
  | [] => [(k, v)]
  | (k', v') :: rest =>
    if k' = k then (k, v) :: rest else (k', v') :: fsInsert rest k v

/-- `os.path.isfile` over the modelled directory. -/
def fsContains (fs : FS) (k : String) : Bool :=
  (fsLookup fs k).isSome

/-- The UTF-8 encoding of a string (`str.encode("utf8")`), modelled as the
code points of its characters; only injectivity and determinism of the
encoding matter here. -/
def utf8Encode (s : String) : Bytes :=
  s.toList.map Char.toNat

/-- `os.path.relpath p "cache"` for the path shapes the code produces:
if `base ++ "/"` is a prefix of `p` the prefix is stripped, otherwise
(a relative `p` outside `base`) the result climbs out of `base` first. -/
def relpath (p base : String) : String :=
  if (base.toList ++ [Char.ofNat 47]).isPrefixOf p.toList then
    String.mk (p.toList.drop (base.toList.length + 1))
  else
    String.mk (String.toList "../" ++ p.toList)

/-- `list.index`: the index of the first occurrence, `none` when absent
(where Python raises `ValueError`). -/
def list_index : List String → String → Option Nat
  | [], _ => none
  | x :: xs, node => if x = node then some 0 else (list_index xs node).map (· + 1)

/-- The in-memory state of one `Cache` instance together with the files of
its cache directory. -/
structure CacheState where
  cacheDir : String
  maxSize : Int
  evictionSize : Nat
  fs : FS
  recentAccessed : List String
  hits : Nat
  misses : Nat

/-- A Python callable: its declared name, its number of positional
parameters, and its behaviour on an argument list of that length. -/
structure PyFunc where
  name : String
  arity : Nat
  impl : List PyVal → PyVal

/-- Calling a Python function: the interpreter checks the number of
positional arguments against the function's parameters and raises
`TypeError` on a mismatch. -/
def callPy (f : PyFunc) (argList : List PyVal) : Except PyErr PyVal :=
  if argList.length = f.arity then Except.ok (f.impl argList)
  else Except.error PyErr.typeError

/-- `Cache.__get_cache_size`: sums the sizes of all files in the cache
directory. -/
def get_cache_size (fs : FS) : Nat :=
  (fs.map (fun e => e.2.length)).sum

/-- `Cache.__handle_cache_size`: when the directory size exceeds `maxSize`
the code calls `self.__evict(self.evictionSize)`, but no method named
`__evict` is defined anywhere in the class, so Python raises
`AttributeError` at that call. -/
def handle_cache_size (st : CacheState) : Except PyErr CacheState :=
  if (get_cache_size st.fs : Int) > st.maxSize then
    Except.error PyErr.attributeError
  else
    Except.ok st

/-- `Cache.__build_file_name`: hashes the function's name (UTF-8) followed
by the pickled argument tuple, and joins the hexdigest onto the cache
directory. -/
def build_file_name (alg : HashAlg) (codec : Codec) (cacheDir funcName : String)
    (args : List PyVal) : String :=
  let fname := alg (utf8Encode funcName ++ codec.dumps (PyVal.tuple args))
  cacheDir ++ "/" ++ fname

/-- `Cache.__shift_node`: moves `node` to the front of the recency list via
`list.index` / `list.pop`; `none` models the `ValueError` that
`list.index` raises when `node` is not in the list. -/
def shift_node (l : List String) (node : String) : Option (List String) :=
  match list_index l node with
  | none => none
  | some i => some (node :: l.eraseIdx i)

/-- `Cache.__read_cache`: opens the file, decompresses and unpickles its
contents, then moves `os.path.relpath(fileName, "cache")` to the front of
the recency list and returns the value. Any failure propagates. -/
def read_cache (codec : Codec) (st : CacheState) (fileName : String) :
    Except PyErr (CacheState × PyVal) :=
  match fsLookup st.fs fileName with
  | none => Except.error PyErr.fileNotFoundError
  | some content =>
    match codec.decompress content with
    | none => Except.error PyErr.zlibError
    | some raw =>
      match codec.loads raw with
      | none => Except.error PyErr.unpicklingError
      | some value =>
        let node := relpath fileName "cache"
        match shift_node st.recentAccessed node with
        | none => Except.error PyErr.valueError
        | some shifted => Except.ok ({ st with recentAccessed := shifted }, value)

/-- `Cache.__write_cache`: first `__handle_cache_size`, then pickle,
compress and write the file, then insert
`os.path.relpath(fileName, "cache")` at the front of the recency list. -/
def write_cache (codec : Codec) (st : CacheState) (fileName : String)
    (returnVal : PyVal) : Except PyErr CacheState :=
  match handle_cache_size st with
  | Except.error e => Except.error e
  | Except.ok st₁ =>
    let compressed := codec.compress (codec.dumps returnVal)
    let node := relpath fileName "cache"
    Except.ok { st₁ with
      fs := fsInsert st₁.fs fileName compressed,
      recentAccessed := node :: st₁.recentAccessed }

/-- The `wrapper` closure produced by `Cache.cache_function`: builds the
file name; on a hit delegates to `__read_cache`; on a miss calls the
wrapped function — as `func(args)` when `args` is non-empty, passing the
whole tuple as a single positional argument, and as `func()` otherwise —
then writes the result to cache and returns it. -/
def wrapper (codec : Codec) (alg : HashAlg) (st : CacheState) (func : PyFunc)
    (args : List PyVal) : Except PyErr (CacheState × PyVal) :=
  let fileName := build_file_name alg codec st.cacheDir func.name args
  if fsContains st.fs fileName then
    read_cache codec st fileName
  else
    match (if args.length > 0 then callPy func [PyVal.tuple args] else callPy func []) with
    | Except.error e => Except.error e
    | Except.ok returnVal =>
      match write_cache codec st fileName returnVal with
      | Except.error e => Except.error e
      | Except.ok st' => Except.ok (st', returnVal)

/-- `Cache.clear`: removes the whole cache directory and recreates it
empty. The in-memory recency list and the hit/miss counters are not
touched. -/
def clear (st : CacheState) : CacheState :=
  { st with fs := [] }

/-- `Cache.set_maxSize`: stores the new maximum and immediately re-runs
the size check. -/
def set_maxSize (st : CacheState) (m : Int) : Except PyErr CacheState :=
  handle_cache_size { st with maxSize := m }

/-- The record returned by `Cache.get_info`. -/
structure CacheInfo where
  hits : Nat
  misses : Nat
  bytes : Nat
  items : Nat
  filled : Rat

/-- `Cache.get_info`: measures the directory size, counts the recency
list, and computes `filled = cacheSizeBytes / maxSize` — an unguarded
division that raises `ZeroDivisionError` when `maxSize = 0`. -/
def get_info (st : CacheState) : Except PyErr CacheInfo :=
  let cacheSizeBytes := get_cache_size st.fs
  let cacheSize := st.recentAccessed.length
  if st.maxSize = 0 then
    Except.error PyErr.zeroDivisionError
  else
    Except.ok { hits := st.hits, misses := st.misses, bytes := cacheSizeBytes,
                items := cacheSize,
                filled := (cacheSizeBytes : Rat) / (st.maxSize : Rat) }

/-- `Cache.__init__`: records the configuration, starts with an empty
recency list and zero counters, keeps whatever files already exist in the
directory (`mkdir(exist_ok=True)`), and clears when `startEmpty`. -/
def Cache.init (cacheDir : String) (maxSize : Int) (evictionSize : Nat)
    (startEmpty : Bool) (fs₀ : FS) : CacheState :=
  let st : CacheState :=
    { cacheDir := cacheDir, maxSize := maxSize, evictionSize := evictionSize,
      fs := fs₀, recentAccessed := [], hits := 0, misses := 0 }
  if startEmpty then clear st else st

/-! Concrete instantiations of the collaborator parameters, used to run the
embedded code on concrete inputs. -/

/-- A concrete serialization/compression pair: integers round-trip, and
`decompress` only accepts byte strings produced by `compress` (so that
garbage bytes fail to decompress, as with `zlib`). -/
def testCodec : Codec where
  dumps v :=
    match v with
    | PyVal.int n => if n < 0 then [0, 1, n.natAbs] else [0, 0, n.natAbs]
    | PyVal.str s => 1 :: s.toList.map Char.toNat
    | PyVal.tuple l =>
      2 :: l.length :: (l.map (fun x =>
        match x with
        | PyVal.int n => if n < 0 then [0, 1, n.natAbs] else [0, 0, n.natAbs]
        | PyVal.str s => 1 :: s.toList.map Char.toNat
        | PyVal.tuple inner => [2, inner.length])).flatten
  loads b :=
    match b with
    | [0, 0, m] => some (PyVal.int (Int.ofNat m))
    | [0, 1, m] => some (PyVal.int (-(Int.ofNat m)))
    | _ => none
  compress b := 7 :: b
  decompress b :=
    match b with
    | 7 :: rest => some rest
    | _ => none

/-- A concrete stand-in digest algorithm with a fixed-length hexdigest. -/
def testAlg : HashAlg := fun _ => "d0d0"

/-- A freshly constructed cache over an empty directory, default-like
configuration. -/
def cache0 : CacheState := Cache.init "cache" 1000000 1 false []

/-- A one-parameter wrapped function returning the constant 7. -/
def fFun : PyFunc := { name := "f", arity := 1, impl := fun _ => PyVal.int 7 }

/-- A two-parameter wrapped function returning its argument list as a
tuple. -/
def gFun : PyFunc := { name := "g", arity := 2, impl := fun l => PyVal.tuple l }

/-- The state after one wrapped call of `fFun` at argument 3 from the fresh
cache (a miss followed by a store). -/
def afterStore : Except PyErr CacheState :=
  (wrapper testCodec testAlg cache0 fFun [PyVal.int 3]).map Prod.fst

/-- Two wrapped calls of `fFun` at argument 3 from the fresh cache: a miss
followed by a hit. -/
def callTwice : Except PyErr (CacheState × PyVal) :=
  match wrapper testCodec testAlg cache0 fFun [PyVal.int 3] with
  | Except.error e => Except.error e
  | Except.ok (st₁, _) => wrapper testCodec testAlg st₁ fFun [PyVal.int 3]

/-- Store, clear, then store the same key again. -/
def afterStoreClearStore : Except PyErr CacheState :=
  match afterStore with
  | Except.error e => Except.error e
  | Except.ok st => (wrapper testCodec testAlg (clear st) fFun [PyVal.int 3]).map Prod.fst

/-- C1: the claim says one distinct call followed by one repeat leaves the
hit counter and the miss counter both at 1 (n = 1). The code never
increments `self.hits` or `self.misses` anywhere, so after the miss and
the subsequent hit both counters are still 0, even though the second call
is served from cache. -/
theorem C1_hit_miss_counters_stay_zero :
    callTwice.map (fun p => (p.1.hits, p.1.misses, p.2)) =
      Except.ok (0, 0, PyVal.int 7) := rfl

/-- C2: the claim says that from a state whose directory size exceeds the
maximum, a store evicts and then writes without raising. In the code,
`__handle_cache_size` calls `self.__evict(...)`, a method that does not
exist, so the store raises `AttributeError` instead: here the directory
holds 3 bytes against a maximum of 2. -/
theorem C2_store_over_budget_raises :
    write_cache testCodec
      { cacheDir := "cache", maxSize := 2, evictionSize := 1,
        fs := [("cache/aa", [1, 2, 3])], recentAccessed := ["aa"],
        hits := 0, misses := 0 }
      "cache/bb" (PyVal.int 1) = Except.error PyErr.attributeError := rfl

/-- C3: the claim says a miss invokes the wrapped function with exactly the
original arguments. The code calls `func(args)`, passing the whole tuple
as one positional argument, so a two-parameter function called through the
wrapper with two arguments raises `TypeError` instead of being invoked
with those two arguments. -/
theorem C3_miss_call_wrong_arity :
    wrapper testCodec testAlg cache0 gFun [PyVal.int 1, PyVal.int 2] =
      Except.error PyErr.typeError := rfl

/-- C4: the claim says `clear()` then `get_info()` reports zero items and
zero bytes, with the hit/miss counters unchanged. `clear` removes the
files but leaves the recency list alone, and `get_info` counts items as
the length of the recency list: after one store and a clear it reports 1
item (bytes 0, counters 0 as before the clear). -/
theorem C4_clear_then_info_items_not_zero :
    (match afterStore with
     | Except.error e => Except.error e
     | Except.ok st =>
       (get_info (clear st)).map (fun i => (i.items, i.bytes, i.hits, i.misses))) =
      Except.ok (1, 0, 0, 0) := rfl

/-- C5: the claim says the recency list always holds exactly one entry per
live cache file with no duplicates. After a store followed by `clear()`
the list still holds the digest while no file is live, and storing the
same key again then duplicates the digest in the list. -/
theorem C5_recency_invariant_broken :
    afterStore.map (fun st => ((clear st).recentAccessed, (clear st).fs)) =
        Except.ok (["d0d0"], []) ∧
      afterStoreClearStore.map (fun st => st.recentAccessed) =
        Except.ok ["d0d0", "d0d0"] :=
  ⟨rfl, rfl⟩

/-- A cache directory holding one valid entry (as written by `testCodec`)
for the key of `fFun` at argument 3, while the in-memory recency list is
empty — the state of a fresh instance over a directory populated by a
prior run. -/
def prevRunState : CacheState :=
  { cacheDir := "cache", maxSize := 1000000, evictionSize := 1,
    fs := [("cache/d0d0", [7, 0, 0, 7])], recentAccessed := [],
    hits := 0, misses := 0 }

/-- A cache directory whose single tracked entry holds garbage bytes that
fail to decompress. -/
def corruptState : CacheState :=
  { cacheDir := "cache", maxSize := 1000000, evictionSize := 1,
    fs := [("cache/d0d0", [9, 9])], recentAccessed := ["d0d0"],
    hits := 0, misses := 0 }

/-- Looking up the key just written finds the bytes just written. -/
theorem fsLookup_fsInsert_self (fs : FS) (k : String) (v : Bytes) :
    fsLookup (fsInsert fs k v) k = some v := by
  induction fs with
  | nil => simp [fsInsert, fsLookup]
  | cons hd tl ih =>
    obtain ⟨k', v'⟩ := hd
    by_cases h : k' = k
    · simp [fsInsert, fsLookup, h]
    · simp [fsInsert, fsLookup, h, ih]

/-- The state a successful `__write_cache` produces: the file written and
the node pushed onto the recency list. -/
def storeResult (codec : Codec) (st : CacheState) (k : String) (v : PyVal) :
    CacheState :=
  { st with
    fs := fsInsert st.fs k (codec.compress (codec.dumps v))
    recentAccessed := relpath k "cache" :: st.recentAccessed }

/-- C6: storing a serializable value under a key and then looking the key
up returns an equal value. Hypotheses: the pre-store directory is within
budget (otherwise the store raises before writing), and the value survives
the collaborator round-trip (compress then decompress, dump then load) —
the meaning of "serializable" for the external `pickle`/`zlib` pair. -/
theorem C6_store_lookup_round_trip (codec : Codec) (st : CacheState)
    (k : String) (v : PyVal)
    (hsize : (get_cache_size st.fs : Int) ≤ st.maxSize)
    (hdec : codec.decompress (codec.compress (codec.dumps v)) = some (codec.dumps v))
    (hload : codec.loads (codec.dumps v) = some v) :
    ∃ st₁ st₂, write_cache codec st k v = Except.ok st₁ ∧
      read_cache codec st₁ k = Except.ok (st₂, v) := by
  have hle : ¬ ((get_cache_size st.fs : Int) > st.maxSize) := not_lt.mpr hsize
  refine ⟨storeResult codec st k v, storeResult codec st k v, ?_, ?_⟩
  · simp [write_cache, handle_cache_size, hle, storeResult]
  · simp [read_cache, storeResult, fsLookup_fsInsert_self, hdec, hload,
      shift_node, list_index]

/-- Witness for C6 at a concrete codec, state, key and value. -/
theorem C6_store_lookup_round_trip_witness :
    ∃ st₁ st₂, write_cache testCodec cache0 "cache/k1" (PyVal.int 5) = Except.ok st₁ ∧
      read_cache testCodec st₁ "cache/k1" = Except.ok (st₂, PyVal.int 5) :=
  C6_store_lookup_round_trip testCodec cache0 "cache/k1" (PyVal.int 5)
    (by decide) rfl rfl

/-- C7: when the file for the derived key exists but its bytes fail to
decompress or to deserialize, the wrapped call surfaces the corruption
error (`zlib.error` or `UnpicklingError`): it never returns a value, never
reaches the miss path, and its outcome is the same for every wrapped
function of that name — the wrapped function is not invoked. -/
theorem C7_corruption_error_surfaces (codec : Codec) (alg : HashAlg)
    (st : CacheState) (func : PyFunc) (args : List PyVal) (b : Bytes)
    (hfile : fsLookup st.fs (build_file_name alg codec st.cacheDir func.name args) =
      some b)
    (hcor : codec.decompress b = none ∨
      ∃ r, codec.decompress b = some r ∧ codec.loads r = none) :
    ∃ e, wrapper codec alg st func args = Except.error e ∧
      (e = PyErr.zlibError ∨ e = PyErr.unpicklingError) ∧
      ∀ g : PyFunc, g.name = func.name →
        wrapper codec alg st g args = Except.error e := by
  rcases hcor with hnone | ⟨r, hr, hl⟩
  · refine ⟨PyErr.zlibError, ?_, Or.inl rfl, ?_⟩
    · simp [wrapper, fsContains, hfile, read_cache, hnone]
    · intro g hg
      simp [wrapper, fsContains, hg, hfile, read_cache, hnone]
  · refine ⟨PyErr.unpicklingError, ?_, Or.inr rfl, ?_⟩
    · simp [wrapper, fsContains, hfile, read_cache, hr, hl]
    · intro g hg
      simp [wrapper, fsContains, hg, hfile, read_cache, hr, hl]

/-- Witness for C7 at a concrete corrupt entry. -/
theorem C7_corruption_error_surfaces_witness :
    ∃ e, wrapper testCodec testAlg corruptState fFun [PyVal.int 3] = Except.error e ∧
      (e = PyErr.zlibError ∨ e = PyErr.unpicklingError) ∧
      ∀ g : PyFunc, g.name = fFun.name →
        wrapper testCodec testAlg corruptState g [PyVal.int 3] = Except.error e :=
  C7_corruption_error_surfaces testCodec testAlg corruptState fFun
    [PyVal.int 3] [9, 9] rfl (Or.inl rfl)

/-- C8: the claim says a lookup of a valid on-disk entry that is absent
from the recency list (a fresh instance over a directory from a prior run)
returns the value and starts tracking the key. In the code, `__read_cache`
calls `__shift_node`, whose `list.index` raises `ValueError` because the
key is not in the list, so the lookup raises instead of returning the
value. -/
theorem C8_untracked_hit_raises_value_error :
    wrapper testCodec testAlg prevRunState fFun [PyVal.int 3] =
      Except.error PyErr.valueError := rfl

/-- C9: key derivation is deterministic: argument tuples that are equal
under the canonical byte-serialization give the same cache path, and the
digest has the algorithm's fixed length. -/
theorem C9_key_derivation_deterministic (codec : Codec) (alg : HashAlg)
    (cacheDir funcName : String) (a₁ a₂ : List PyVal) (L : Nat)
    (hargs : codec.dumps (PyVal.tuple a₁) = codec.dumps (PyVal.tuple a₂))
    (hlen : ∀ b, (alg b).length = L) :
    build_file_name alg codec cacheDir funcName a₁ =
        build_file_name alg codec cacheDir funcName a₂ ∧
      (alg (utf8Encode funcName ++ codec.dumps (PyVal.tuple a₁))).length = L :=
  ⟨by simp [build_file_name, hargs], hlen _⟩

/-- Witness for C9: two distinct argument tuples with the same
serialization under `testCodec` derive the same fixed-length key. -/
theorem C9_key_derivation_deterministic_witness :
    build_file_name testAlg testCodec "cache" "f" [PyVal.tuple [PyVal.int 1]] =
        build_file_name testAlg testCodec "cache" "f" [PyVal.tuple [PyVal.int 2]] ∧
      (testAlg (utf8Encode "f" ++
        testCodec.dumps (PyVal.tuple [PyVal.tuple [PyVal.int 1]]))).length = 4 :=
  C9_key_derivation_deterministic testCodec testAlg "cache" "f"
    [PyVal.tuple [PyVal.int 1]] [PyVal.tuple [PyVal.int 2]] 4 rfl (fun _ => rfl)

/-- C10: `get_info` divides the measured byte size by `maxSize` without a
guard: it raises `ZeroDivisionError` exactly when the configured maximum
is zero, and returns the info record whenever the maximum is nonzero. -/
theorem C10_get_info_division (st : CacheState) :
    (st.maxSize = 0 → get_info st = Except.error PyErr.zeroDivisionError) ∧
    (st.maxSize ≠ 0 → ∃ i, get_info st = Except.ok i) := by
  constructor
  · intro h
    simp [get_info, h]
  · intro h
    refine ⟨{ hits := st.hits, misses := st.misses, bytes := get_cache_size st.fs,
              items := st.recentAccessed.length,
              filled := (get_cache_size st.fs : Rat) / (st.maxSize : Rat) }, ?_⟩
    simp [get_info, h]

/-- A cache configured with a zero maximum size. -/
def zeroMaxState : CacheState :=
  { cacheDir := "cache", maxSize := 0, evictionSize := 1, fs := [],
    recentAccessed := [], hits := 0, misses := 0 }

/-- Witness for C10 at a zero-maximum state and at a nonzero-maximum
state. -/
theorem C10_get_info_division_witness :
    get_info zeroMaxState = Except.error PyErr.zeroDivisionError ∧
      ∃ i, get_info cache0 = Except.ok i :=
  ⟨(C10_get_info_division zeroMaxState).1 rfl,
   (C10_get_info_division cache0).2 (by decide)⟩

end SimpleCache
